import Mathlib

/-!
# Verification of the crypto-call ingest pipeline

Shallow embedding, in Lean 4, of the parts of the `pfultibot-trk` repository
that the frozen claims are about:

* `src/parser.py` — `parse_crypto_call` and its helpers (`_parse_update_message`,
  `_parse_discovery_message`, `_parse_fallback_format`, `_convert_to_number`),
  including the exact `re` patterns, embedded as terms of a small backtracking
  regex interpreter (`RE` / `reMatch` / `reSearch`) that mirrors CPython `re`
  semantics for the constructs those patterns use (IGNORECASE + DOTALL,
  greedy/lazy repetition, character classes, capture groups, `$`).
* `src/listener.py` — the link-and-inherit step of `MessageHandler.handle_message`,
  `MessageHandler.handle_message_with_retry`, and `TelegramListener.auto_reconnect`.
* `src/storage/sqlite.py` — `store_raw_message` (the raw-layer upsert) and the
  two linker lookups.
* `src/storage/multi.py` — `MultiStorage.append_row`.
* `backfill_unparsed_messages.py` — `BackfillProcessor.link_to_discovery_call`
  and `BackfillProcessor.inherit_discovery_data`.

Modelling conventions:

* Python floats are modelled as `ℚ`.  Every numeric value the parser produces
  is obtained from a decimal literal times a power of ten, so the claims'
  equalities are about those decimal values.
* Python exceptions are modelled by the inductive `PyErr`; fallible code
  returns `Except PyErr α`.  `float()` on a string is `pyFloat`, which fails
  (with `ValueError`) exactly on strings outside the decimal forms it is given
  here, and `float(None)` is a `TypeError`.
* SQLite tables are lists of rows in insertion (rowid) order; `SELECT ...
  LIMIT 1` without `ORDER BY` returns the first row in that order, and
  `ORDER BY timestamp DESC LIMIT 1` returns a row with maximal timestamp.
  Timestamps are `ℚ` (hours), so the 24-hour window test is `now - 24 ≤ t`.
* `random.uniform` draws are passed in as explicit parameters.
-/

/-- Python exception classes that the embedded code can raise. -/
inductive PyErr where
  | valueError (msg : String)
  | typeError (msg : String)
  | attributeError (msg : String)
  | exception (msg : String)
deriving DecidableEq

/-- The exception classes caught by `parse_crypto_call`'s
`except (ValueError, AttributeError)` clause. -/
def PyErr.catchable : PyErr → Bool
  | .valueError _ => true
  | .attributeError _ => true
  | .typeError _ => false
  | .exception _ => false

/-! ## Python string primitives -/

/-- ASCII whitespace as recognised by `\s` and `str.strip` (the inputs in this
development contain no non-ASCII whitespace). -/
def pyIsSpace (c : Char) : Bool :=
  c = ' ' ∨ c = '\t' ∨ c = '\n' ∨ c = '\r' ∨ c = '\x0b' ∨ c = '\x0c'

/-- `str.strip()`. -/
def pyStrip (s : String) : String :=
  String.mk (((s.data.dropWhile pyIsSpace).reverse.dropWhile pyIsSpace).reverse)

/-- `str.lower()` (ASCII). -/
def pyLower (s : String) : String := String.mk (s.data.map Char.toLower)

/-- `str.upper()` (ASCII). -/
def pyUpper (s : String) : String := String.mk (s.data.map Char.toUpper)

/-- Does `hay` start with `pat`? -/
def leadsWith : List Char → List Char → Bool
  | _, [] => true
  | [], _ :: _ => false
  | a :: as, b :: bs => a = b && leadsWith as bs

/-- Python's `pat in hay` substring test. -/
def strContains (hay : List Char) (pat : List Char) : Bool :=
  leadsWith hay pat ||
    match hay with
    | [] => false
    | _ :: t => strContains t pat

/-- Numeric value of a decimal digit character. -/
def digitVal (c : Char) : Nat := c.toNat - 48

/-- Value of a digit run. -/
def natOfDigits (cs : List Char) : Nat := cs.foldl (fun a c => a * 10 + digitVal c) 0

/-- The decimal forms `float()` is applied to in this code base:
`[0-9]+` or `[0-9]+.[0-9]+` (these are the only shapes the capture groups that
feed `float()` can produce).  Anything else is rejected, as `float()` rejects
malformed literals. -/
def decFloat? (s : String) : Option ℚ :=
  match s.split (· = '.') with
  | [a] =>
      if a.data ≠ [] ∧ a.data.all Char.isDigit then some (natOfDigits a.data) else none
  | [a, b] =>
      if a.data ≠ [] ∧ a.data.all Char.isDigit ∧ b.data ≠ [] ∧ b.data.all Char.isDigit then
        some ((natOfDigits a.data : ℚ) + (natOfDigits b.data : ℚ) / (10 ^ b.data.length : ℚ))
      else none
  | _ => none

/-- `float(s)` on a string: a `ValueError` exactly on malformed input. -/
def pyFloat (s : String) : Except PyErr ℚ :=
  match decFloat? s with
  | some q => .ok q
  | none => .error (.valueError ("could not convert string to float"))

/-- `float(x)` where `x` is `match.group(i)`: `float(None)` is a `TypeError`. -/
def pyFloatOpt (x : Option String) : Except PyErr ℚ :=
  match x with
  | none => .error (.typeError ("float() argument must be a string or a real number, not NoneType"))
  | some s => pyFloat s

/-! ## A small backtracking regex interpreter

Mirrors CPython `re` on the constructs used by `src/parser.py`'s patterns.
All of those patterns are compiled with `re.IGNORECASE` (so matching is
case-folded) and the two multi-line ones also with `re.DOTALL` (so `.` matches
every character, which is what `dot` does below). -/

inductive RE where
  | ch (c : Char)
  | cls (cs : List Char) (neg : Bool)
  | dot
  | eps
  | eos
  | seq (a b : RE)
  | alt (a b : RE)
  | star (a : RE) (lazy : Bool)
  | grp (i : Nat) (a : RE)

/-- Captures recorded so far, most recent first (Python keeps the last match
of each group). -/
abbrev Caps := List (Nat × String)

/-- Case-insensitive character match (`re.IGNORECASE`, ASCII case folding). -/
def chEq (a b : Char) : Bool := a.toLower = b.toLower

/-- `List.flatMap`, written out so its membership lemma is self-contained. -/
def catMapM (f : α → List β) : List α → List β
  | [] => []
  | a :: as => f a ++ catMapM f as

/-- All ways `r` can match a prefix of `s`, as `(rest-of-input, captures)`
pairs in backtracking priority order (head = the match CPython commits to).
`fuel` bounds call depth; every call site supplies enough of it. -/
def reMatch : Nat → RE → List Char → Caps → List (List Char × Caps)
  | 0, _, _, _ => []
  | _ + 1, .ch c, s, caps =>
      match s with
      | [] => []
      | d :: rest => if chEq c d then [(rest, caps)] else []
  | _ + 1, .cls cs neg, s, caps =>
      match s with
      | [] => []
      | d :: rest => if (cs.any (fun c => chEq c d)) ≠ neg then [(rest, caps)] else []
  | _ + 1, .dot, s, caps =>
      match s with
      | [] => []
      | _ :: rest => [(rest, caps)]
  | _ + 1, .eps, s, caps => [(s, caps)]
  | _ + 1, .eos, s, caps => if s = [] ∨ s = ['\n'] then [(s, caps)] else []
  | f + 1, .seq a b, s, caps =>
      catMapM (fun p => reMatch f b p.1 p.2) (reMatch f a s caps)
  | f + 1, .alt a b, s, caps => reMatch f a s caps ++ reMatch f b s caps
  | f + 1, .star a lz, s, caps =>
      let more := catMapM
        (fun p => if p.1.length < s.length then reMatch f (.star a lz) p.1 p.2 else [])
        (reMatch f a s caps)
      if lz then (s, caps) :: more else more ++ [(s, caps)]
  | f + 1, .grp i a, s, caps =>
      (reMatch f a s caps).map
        (fun p => (p.1, (i, String.mk (s.take (s.length - p.1.length))) :: p.2))

/-- `match.group(i)`: the most recently recorded capture of group `i`. -/
def lookupGrp (caps : Caps) (i : Nat) : Option String :=
  (caps.find? (fun q => q.1 = i)).map (·.2)

/-- Structural size of a pattern, used to compute a sufficient fuel. -/
def reSize : RE → Nat
  | .ch _ => 1
  | .cls _ _ => 1
  | .dot => 1
  | .eps => 1
  | .eos => 1
  | .seq a b => reSize a + reSize b + 1
  | .alt a b => reSize a + reSize b + 1
  | .star a _ => reSize a + 1
  | .grp _ a => reSize a + 1

/-- `re.search` over the suffixes of the input: leftmost match wins, and at a
given position the backtracking-first match wins.  The final position (empty
suffix) is tried as well, as CPython does. -/
def reSearchL (r : RE) (fuel : Nat) : List Char → Option Caps
  | [] =>
      match reMatch fuel r [] [] with
      | p :: _ => some p.2
      | [] => none
  | c :: t =>
      match reMatch fuel r (c :: t) [] with
      | p :: _ => some p.2
      | [] => reSearchL r fuel t

/-- `re.search(pattern, s)`, returning the captures of the match if any. -/
def reSearch (r : RE) (s : String) : Option Caps :=
  reSearchL r ((reSize r + 2) * (s.data.length + 2)) s.data

/-- Groups that every successful match of `r` must have recorded (groups on
the mandatory concatenation spine; an under-approximation for `alt`/`star`,
which is all the source patterns need). -/
def mndG : RE → List Nat
  | .seq a b => mndG a ++ mndG b
  | .grp i a => i :: mndG a
  | _ => []

/-! ## The patterns of `src/parser.py`, transliterated

Each definition below is a character-by-character transliteration of the
corresponding pattern string in the source.  All patterns are compiled with
`re.IGNORECASE`; `vipRegex`, `regularRegex` and `discoveryRegex` also with
`re.DOTALL`. -/

/-- Right-nested concatenation of a pattern list. -/
def seqL : List RE → RE
  | [] => .eps
  | [r] => r
  | r :: rs => .seq r (seqL rs)

/-- A literal text run. -/
def rStr (s : String) : RE := seqL (s.data.map RE.ch)

/-- Greedy `+`. -/
def rPlus (r : RE) : RE := .seq r (.star r false)

/-- Lazy `+?`. -/
def rPlusLazy (r : RE) : RE := .seq r (.star r true)

/-- Greedy `?`. -/
def rOpt (r : RE) : RE := .alt r .eps

/-- `\s` (ASCII). -/
def wsp : RE := .cls [' ', '\t', '\n', '\r', '\x0b', '\x0c'] false

/-- `\s*`. -/
def wss : RE := .star wsp false

/-- `[0-9]`. -/
def digitCls : RE := .cls (("0123456789").data) false

/-- `[KMB]`. -/
def kmbCls : RE := .cls ['K', 'M', 'B'] false

/-- `[0-9]+(?:\.[0-9]+)?`. -/
def rNum : RE := .seq (rPlus digitCls) (rOpt (.seq (.ch '.') (rPlus digitCls)))

/-- `\*?\*?`. -/
def stars2 : RE := .seq (rOpt (.ch '*')) (rOpt (.ch '*'))

/-- `[`]*` (any number of backticks). -/
def btStar : RE := .star (.cls ['`'] false) false

/-- The leading-glyph class `[🎉🔥🌕⚡️🚀🌙]`.  In the source string `⚡️` is two
codepoints (U+26A1 followed by the variation selector U+FE0F), so the class
contains seven codepoints, the variation selector among them. -/
def glyphCls : RE := .cls ['🎉', '🔥', '🌕', '⚡', '️', '🚀', '🌙'] false

/-- `(?::?\s|$)`, the tail of both update patterns. -/
def updTail : RE := .alt (.seq (rOpt (.ch ':')) wsp) .eos

/-- `vip_pattern` of `_parse_update_message` (src/parser.py line 105):
`[🎉🔥🌕⚡️🚀🌙]\s*\*?\*?([0-9]+(?:\.[0-9]+)?)x\s*\(([0-9]+(?:\.[0-9]+)?)x\s*from\s*VIP\)\*?\*?\s*[`|]*\s*💹[`]*From[`]*\s*\*?\*?([0-9]+(?:\.[0-9]+)?)\s*([KMB]?)\*?\*?\s*↗️\s*\*?\*?([0-9]+(?:\.[0-9]+)?)\s*([KMB]?)\*?\*?\s*[`]*within[`]*\s*(.+?)(?::?\s|$)`
(`↗️` is the two codepoints U+2197 U+FE0F). -/
def vipRegex : RE := seqL [
  glyphCls, wss, stars2,
  .grp 1 rNum, .ch 'x', wss, .ch '(',
  .grp 2 rNum, .ch 'x', wss, rStr ("from"), wss, rStr ("VIP"), .ch ')', stars2, wss,
  .star (.cls ['`', '|'] false) false, wss,
  .ch '💹', btStar, rStr ("From"), btStar, wss, stars2,
  .grp 3 rNum, wss, .grp 4 (rOpt kmbCls), stars2, wss,
  .ch '↗', .ch '️', wss, stars2,
  .grp 5 rNum, wss, .grp 6 (rOpt kmbCls), stars2, wss,
  btStar, rStr ("within"), btStar, wss,
  .grp 7 (rPlusLazy .dot), updTail]

/-- `regular_pattern` of `_parse_update_message` (src/parser.py lines 135-141).
The concatenation of its five string fragments is character-for-character the
same pattern string as `vip_pattern` — including the mandatory
`\(([0-9]+(?:\.[0-9]+)?)x\s*from\s*VIP\)` parenthetical — so the embedded
term is the same term. -/
def regularRegex : RE := vipRegex

/-- `[A-Za-z0-9]`. -/
def alnumCls : RE :=
  .cls (("ABCDEFGHIJKLMNOPQRSTUVWXYZabcdefghijklmnopqrstuvwxyz0123456789").data) false

/-- `r{n,}`: `n` mandatory copies followed by a greedy star. -/
def repN : Nat → RE → RE
  | 0, r => .star r false
  | n + 1, r => .seq r (repN n r)

/-- `discovery_pattern` of `_parse_discovery_message` (src/parser.py lines
179-187), with the named groups numbered in source order: `token_name` = 1,
`contract_address` = 2, `cap_value` = 3, `cap_unit` = 4:
`\[(?P<token_name>[^\]]+)\]\(https?://[^\)]+\).*?`(?P<contract_address>[A-Za-z0-9]{30,})`.*?Cap:`\s*\**(?P<cap_value>[0-9]+(?:\.[0-9]+)?)\s*(?P<cap_unit>[KMB]?)\**`. -/
def discoveryRegex : RE := seqL [
  .ch '[', .grp 1 (rPlus (.cls [']'] true)), .ch ']',
  .ch '(', rStr ("http"), rOpt (.ch 's'), rStr ("://"), rPlus (.cls [')'] true), .ch ')',
  .star .dot true,
  .ch '`', .grp 2 (repN 30 alnumCls), .ch '`',
  .star .dot true,
  rStr ("Cap:"), .ch '`', wss, .star (.ch '*') false,
  .grp 3 rNum, wss, .grp 4 (rOpt kmbCls), .star (.ch '*') false]

/-- `[A-Z]`. -/
def upperCls : RE := .cls (("ABCDEFGHIJKLMNOPQRSTUVWXYZ").data) false

/-- `[A-Z0-9]`. -/
def upperDigCls : RE := .cls (("ABCDEFGHIJKLMNOPQRSTUVWXYZ0123456789").data) false

/-- `\$([A-Z][A-Z0-9]*)` of `_parse_fallback_format`. -/
def tokenRegex : RE := .seq (.ch '$') (.grp 1 (.seq upperCls (.star upperDigCls false)))

/-- `Entry:?\s*([0-9]+(?:\.[0-9]+)?)\s*([KMB])?` of `_parse_fallback_format`
(note: here the `[KMB]` group itself is optional, unlike the update patterns). -/
def entryRegex : RE :=
  seqL [rStr ("Entry"), rOpt (.ch ':'), wss, .grp 1 rNum, wss, rOpt (.grp 2 kmbCls)]

/-- `Peak:?\s*([0-9]+(?:\.[0-9]+)?)\s*([KMB])?` of `_parse_fallback_format`. -/
def peakRegex : RE :=
  seqL [rStr ("Peak"), rOpt (.ch ':'), wss, .grp 1 rNum, wss, rOpt (.grp 2 kmbCls)]

/-- `\(([0-9]+(?:\.[0-9]+)?)x` of `_parse_fallback_format`. -/
def gainRegex : RE := seqL [.ch '(', .grp 1 rNum, .ch 'x']

/-- `vip` (the VIP word search of `_parse_fallback_format`). -/
def vipWordRegex : RE := rStr ("vip")

/-! ## The parser functions of `src/parser.py` -/

/-- The parsed record (`message_type` plus extracted fields); a missing
dictionary key is a `none` field. -/
structure ParsedCall where
  token_name : Option String
  entry_cap : Option ℚ
  peak_cap : Option ℚ
  x_gain : Option ℚ
  vip_x : Option ℚ
  message_type : String
  contract_address : Option String
  time_to_peak : Option String
deriving DecidableEq

/-- `_convert_to_number(value, unit)`: `K`/`M`/`B` magnitudes, with a falsy
unit (None or the empty capture) leaving the value unchanged, and an unknown
unit multiplying by 1. -/
def convertToNumber (value : ℚ) (unit : Option String) : ℚ :=
  match unit with
  | none => value
  | some u =>
      if u = "" then value
      else
        let uu := pyUpper u
        if uu = ("K") then value * 1000
        else if uu = ("M") then value * 1000000
        else if uu = ("B") then value * 1000000000
        else value

/-- The extraction block of `_parse_update_message`'s VIP branch
(src/parser.py lines 108-131): groups 1 = gain, 2 = VIP gain, 3/4 = entry
value/unit, 5/6 = peak value/unit, 7 = time-to-peak. -/
def extractVip (caps : Caps) : Except PyErr ParsedCall :=
  match pyFloatOpt (lookupGrp caps 1) with
  | .error e => .error e
  | .ok xg =>
  match pyFloatOpt (lookupGrp caps 2) with
  | .error e => .error e
  | .ok vx =>
  match pyFloatOpt (lookupGrp caps 3) with
  | .error e => .error e
  | .ok ev =>
  match pyFloatOpt (lookupGrp caps 5) with
  | .error e => .error e
  | .ok pv =>
  match lookupGrp caps 7 with
  | none => .error (.attributeError ("NoneType object has no attribute strip"))
  | some t =>
      .ok { token_name := none,
            entry_cap := some (convertToNumber ev (lookupGrp caps 4)),
            peak_cap := some (convertToNumber pv (lookupGrp caps 6)),
            x_gain := some xg, vip_x := some vx, message_type := ("update"),
            contract_address := none, time_to_peak := some (pyStrip t) }

/-- The extraction block of `_parse_update_message`'s regular branch
(src/parser.py lines 144-166).  It reads groups 1 = gain, 2/3 = entry
value/unit, 4/5 = peak value/unit, 6 = time-to-peak — the numbering the
pattern would have without the VIP parenthetical, although the pattern it is
applied to (`regularRegex` = `vipRegex`) numbers its groups differently. -/
def extractRegular (caps : Caps) : Except PyErr ParsedCall :=
  match pyFloatOpt (lookupGrp caps 1) with
  | .error e => .error e
  | .ok xg =>
  match pyFloatOpt (lookupGrp caps 2) with
  | .error e => .error e
  | .ok ev =>
  match pyFloatOpt (lookupGrp caps 4) with
  | .error e => .error e
  | .ok pv =>
  match lookupGrp caps 6 with
  | none => .error (.attributeError ("NoneType object has no attribute strip"))
  | some t =>
      .ok { token_name := none,
            entry_cap := some (convertToNumber ev (lookupGrp caps 3)),
            peak_cap := some (convertToNumber pv (lookupGrp caps 5)),
            x_gain := some xg, vip_x := none, message_type := ("update"),
            contract_address := none, time_to_peak := some (pyStrip t) }

/-- `_parse_update_message`: the VIP pattern first, then the regular pattern. -/
def parseUpdateMessage (s : String) : Except PyErr (Option ParsedCall) :=
  match reSearch vipRegex s with
  | some caps => (extractVip caps).map some
  | none =>
      match reSearch regularRegex s with
      | some caps => (extractRegular caps).map some
      | none => .ok none

/-- The record built by `_parse_discovery_message` from a match (src/parser.py
lines 191-205); a missing mandatory group would be `None`, and `None.strip()`
an `AttributeError`. -/
def extractDiscovery (caps : Caps) : Except PyErr ParsedCall :=
  match pyFloatOpt (lookupGrp caps 3) with
  | .error e => .error e
  | .ok capValue =>
  match lookupGrp caps 1 with
  | none => .error (.attributeError ("NoneType object has no attribute strip"))
  | some tn =>
  match lookupGrp caps 2 with
  | none => .error (.attributeError ("NoneType object has no attribute strip"))
  | some ca =>
      .ok { token_name := some (pyStrip tn),
            entry_cap := some (convertToNumber capValue (lookupGrp caps 4)),
            peak_cap := some (convertToNumber capValue (lookupGrp caps 4)),
            x_gain := some 1, vip_x := none, message_type := ("discovery"),
            contract_address := some (pyStrip ca), time_to_peak := none }

/-- `_parse_discovery_message`. -/
def parseDiscoveryMessage (s : String) : Except PyErr (Option ParsedCall) :=
  match reSearch discoveryRegex s with
  | some caps => (extractDiscovery caps).map some
  | none => .ok none

/-- The bonding record of `parse_crypto_call` (src/parser.py lines 78-86). -/
def bondingRecord : ParsedCall :=
  { token_name := none, entry_cap := none, peak_cap := none, x_gain := none,
    vip_x := none, message_type := ("bonding"), contract_address := none,
    time_to_peak := none }

/-- The optional `$TOKEN` extraction of `_parse_fallback_format` (lines
217-220): `token_match.group(1).upper()` when the token pattern matches. -/
def fallbackTokenName (s : String) : Except PyErr (Option String) :=
  match reSearch tokenRegex s with
  | none => .ok none
  | some caps =>
      match lookupGrp caps 1 with
      | none => .error (.attributeError ("NoneType object has no attribute upper"))
      | some t => .ok (some (pyUpper t))

/-- `_parse_fallback_format`. -/
def parseFallbackFormat (s : String) : Except PyErr (Option ParsedCall) :=
  match fallbackTokenName s with
  | .error e => .error e
  | .ok tokenName =>
  match reSearch entryRegex s with
  | none => .ok none
  | some ecaps =>
  match pyFloatOpt (lookupGrp ecaps 1) with
  | .error e => .error e
  | .ok ev =>
  match reSearch peakRegex s with
  | none => .ok none
  | some pcaps =>
  match pyFloatOpt (lookupGrp pcaps 1) with
  | .error e => .error e
  | .ok pv =>
  match reSearch gainRegex s with
  | none => .ok none
  | some gcaps =>
  match pyFloatOpt (lookupGrp gcaps 1) with
  | .error e => .error e
  | .ok xg =>
      .ok (some { token_name := tokenName,
                  entry_cap := some (convertToNumber ev (lookupGrp ecaps 2)),
                  peak_cap := some (convertToNumber pv (lookupGrp pcaps 2)),
                  x_gain := some xg,
                  vip_x := if (reSearch vipWordRegex s).isSome then some xg else none,
                  message_type := ("update"), contract_address := none,
                  time_to_peak := none })

/-- The body of `parse_crypto_call`'s `try` block: update, then discovery,
then bonding, then the fallback format. -/
def parseBody (s : String) : Except PyErr (Option ParsedCall) :=
  match parseUpdateMessage s with
  | .error e => .error e
  | .ok (some r) => .ok (some r)
  | .ok none =>
  match parseDiscoveryMessage s with
  | .error e => .error e
  | .ok (some r) => .ok (some r)
  | .ok none =>
  if strContains (pyLower s).data (("bonded").data) then .ok (some bondingRecord)
  else parseFallbackFormat s

/-- The argument of `parse_crypto_call`: `None`, a non-string value, or a
string. -/
inductive PyInput where
  | pyNone
  | pyNonString
  | pyStr (s : String)

/-- `parse_crypto_call`: the `None`/non-string/empty guards, whitespace
stripping, the `try` body, and the `except (ValueError, AttributeError)`
handler that collapses those two exception classes to no-match.  Any other
exception class escaping the body would propagate to the caller. -/
def parseCryptoCall (input : PyInput) : Except PyErr (Option ParsedCall) :=
  match input with
  | .pyNone => .ok none
  | .pyNonString => .ok none
  | .pyStr s =>
      if s = "" then .ok none
      else
        if pyStrip s = "" then .ok none
        else
          match parseBody (pyStrip s) with
          | .ok r => .ok r
          | .error e => if e.catchable then .ok none else .error e

deriving instance DecidableEq for Except

/-! ## Python truthiness helpers -/

/-- Truthiness of an optional integer (`None` and `0` are falsy). -/
def pyTruthyOptInt : Option Int → Bool
  | none => false
  | some n => n != 0

/-- Truthiness of an optional row id (`None` and `0` are falsy). -/
def pyTruthyOptNat : Option Nat → Bool
  | none => false
  | some n => n != 0

/-- Falsiness of an optional string (`None` and `""` are falsy). -/
def pyFalsyOptStr : Option String → Bool
  | none => true
  | some s => s == ""

/-! ## The primary store (`src/storage/sqlite.py`)

A `crypto_calls` table is a list of rows in rowid (insertion) order. -/

/-- A row of the `crypto_calls` table. -/
structure CallRow where
  id : Nat
  token_name : Option String
  entry_cap : Option ℚ
  peak_cap : Option ℚ
  x_gain : Option ℚ
  vip_x : Option ℚ
  message_type : Option String
  contract_address : Option String
  time_to_peak : Option String
  timestamp : ℚ
  message_id : Int
  channel_name : String
  linked_crypto_call_id : Option Nat
deriving DecidableEq

/-- `SQLiteStorage.get_crypto_call_by_message_id`:
`SELECT id FROM crypto_calls WHERE message_id = ? LIMIT 1` — the first row
with that `message_id`, with no constraint on its `message_type` and no
channel filter. -/
def getCryptoCallByMessageId (store : List CallRow) (mid : Int) : Option Nat :=
  (store.find? (fun r => r.message_id == mid)).map (·.id)

/-- `SQLiteStorage.get_crypto_call_by_id`:
`SELECT * FROM crypto_calls WHERE id = ? LIMIT 1`. -/
def getCryptoCallById (store : List CallRow) (cid : Nat) : Option CallRow :=
  store.find? (fun r => r.id == cid)

/-! ## The live link-and-inherit step (`src/listener.py` lines 414-459) -/

/-- The `storage_data` dictionary handed to `MultiStorage.append_row`. -/
structure StoredCall where
  token_name : Option String
  entry_cap : Option ℚ
  peak_cap : Option ℚ
  x_gain : Option ℚ
  vip_x : Option ℚ
  message_type : String
  contract_address : Option String
  time_to_peak : Option String
  linked_crypto_call_id : Option Nat
  message_id : Int
  channel_name : String
  timestamp : ℚ
deriving DecidableEq

/-- The linking-and-inheritance block of `MessageHandler.handle_message`
(src/listener.py lines 414-459), producing the `storage_data` record from the
parsed data, the message's reply reference, and the primary store.  If the
message is a reply and `get_crypto_call_by_message_id` finds a row — any row,
of any `message_type` — the parsed data is linked to it, and a falsy parsed
`token_name` is replaced by that row's `token_name` when the latter is
truthy.  `contract_address` is passed through unchanged.  `tsNow` models
`datetime.now().isoformat()`. -/
def liveStorageData (store : List CallRow) (replyTo : Option Int)
    (parsed : ParsedCall) (messageId : Int) (channelName : String) (tsNow : ℚ) :
    StoredCall :=
  let link : Option Nat × Option String :=
    if pyTruthyOptInt replyTo then
      match replyTo with
      | none => (none, parsed.token_name)
      | some rid =>
          match getCryptoCallByMessageId store rid with
          | none => (none, parsed.token_name)
          | some oid =>
              if oid ≠ 0 then
                let tn :=
                  if pyFalsyOptStr parsed.token_name then
                    match getCryptoCallById store oid with
                    | some orig =>
                        if pyFalsyOptStr orig.token_name then parsed.token_name
                        else orig.token_name
                    | none => parsed.token_name
                  else parsed.token_name
                (some oid, tn)
              else (none, parsed.token_name)
    else (none, parsed.token_name)
  { token_name := link.2, entry_cap := parsed.entry_cap, peak_cap := parsed.peak_cap,
    x_gain := parsed.x_gain, vip_x := parsed.vip_x, message_type := parsed.message_type,
    contract_address := parsed.contract_address, time_to_peak := parsed.time_to_peak,
    linked_crypto_call_id := link.1, message_id := messageId,
    channel_name := channelName, timestamp := tsNow }

/-! ## The backfill job (`backfill_unparsed_messages.py`) -/

/-- A raw message as handed to the handler / read back by the backfill job. -/
structure RawMsgData where
  message_id : Int
  channel_id : Int
  channel_name : String
  message_text : String
  message_date : ℚ
  reply_to_message_id : Option Int
deriving DecidableEq

/-- `ORDER BY timestamp DESC LIMIT 1` over a candidate list: a row of maximal
timestamp (the first such row, ties being unspecified in SQL). -/
def mostRecent (l : List CallRow) : Option CallRow :=
  l.foldl
    (fun acc r =>
      match acc with
      | none => some r
      | some a => if r.timestamp > a.timestamp then some r else some a)
    none

/-- `BackfillProcessor.link_to_discovery_call` (lines 150-224): reply lookup
first (`SELECT id FROM crypto_calls WHERE message_id = ? LIMIT 1`, with no
`message_type` filter), then the contract-address and token-name heuristics,
both restricted to `message_type = 'discovery'`, the same channel, and a
24-hour window; no market-cap matching.  `now` models SQL `datetime('now')`,
in hours. -/
def linkToDiscoveryCall (store : List CallRow) (now : ℚ) (raw : RawMsgData)
    (parsed : ParsedCall) : Option Nat :=
  if parsed.message_type == ("discovery") then none
  else
    let byReply : Option Nat :=
      if pyTruthyOptInt raw.reply_to_message_id then
        match raw.reply_to_message_id with
        | none => none
        | some rid => (store.find? (fun r => r.message_id == rid)).map (·.id)
      else none
    match byReply with
    | some i => some i
    | none =>
        let byContract : Option Nat :=
          if !(pyFalsyOptStr parsed.contract_address) then
            (mostRecent (store.filter (fun r =>
              r.contract_address == parsed.contract_address &&
              r.message_type == some ("discovery") &&
              r.channel_name == raw.channel_name &&
              decide (now - 24 ≤ r.timestamp)))).map (·.id)
          else none
        match byContract with
        | some i => some i
        | none =>
            if !(pyFalsyOptStr parsed.token_name) then
              (mostRecent (store.filter (fun r =>
                (r.token_name.map pyLower) == (parsed.token_name.map pyLower) &&
                r.message_type == some ("discovery") &&
                r.channel_name == raw.channel_name &&
                decide (now - 24 ≤ r.timestamp)))).map (·.id)
            else none

/-- `BackfillProcessor.inherit_discovery_data` (lines 226-260): fetch
`token_name` and `contract_address` of the row with the given id and fill
each of the two fields into the parsed data when the parsed field is falsy
and the row's is truthy. -/
def inheritDiscoveryData (store : List CallRow) (parsed : ParsedCall)
    (discoveryId : Option Nat) : ParsedCall :=
  if !(pyTruthyOptNat discoveryId) then parsed
  else
    match discoveryId with
    | none => parsed
    | some did =>
        match store.find? (fun r => r.id == did) with
        | none => parsed
        | some row =>
            let e1 :=
              if pyFalsyOptStr parsed.token_name && !(pyFalsyOptStr row.token_name) then
                { parsed with token_name := row.token_name }
              else parsed
            if pyFalsyOptStr e1.contract_address && !(pyFalsyOptStr row.contract_address) then
              { e1 with contract_address := row.contract_address }
            else e1

/-- `BackfillProcessor.prepare_storage_record` (lines 262-288). -/
def prepareStorageRecord (raw : RawMsgData) (parsed : ParsedCall)
    (linkedCallId : Option Nat) : StoredCall :=
  { token_name := parsed.token_name, entry_cap := parsed.entry_cap,
    peak_cap := parsed.peak_cap, x_gain := parsed.x_gain, vip_x := parsed.vip_x,
    message_type := parsed.message_type, contract_address := parsed.contract_address,
    time_to_peak := parsed.time_to_peak, timestamp := raw.message_date,
    message_id := raw.message_id, channel_name := raw.channel_name,
    linked_crypto_call_id := linkedCallId }

/-! ## The raw-layer upsert (`SQLiteStorage.store_raw_message`)

`raw_messages` has `UNIQUE(message_id, channel_id)`;
`INSERT OR REPLACE` deletes any conflicting row and inserts the new one at
the end, with `is_classified`/`classification_result` at their column
defaults and `created_at` at the insertion time. -/

/-- A row of the `raw_messages` table. -/
structure RawRow where
  message_id : Int
  channel_id : Int
  channel_name : String
  message_text : String
  message_date : ℚ
  reply_to_message_id : Option Int
  is_classified : Bool
  classification_result : Option String
  created_at : ℚ
deriving DecidableEq

/-- The upsert identity of a stored raw row. -/
def rawKey (r : RawRow) : Int × Int := (r.message_id, r.channel_id)

/-- The upsert identity of an incoming raw message. -/
def msgKey (m : RawMsgData) : Int × Int := (m.message_id, m.channel_id)

/-- The row the upsert inserts: the supplied fields, the column defaults for
`is_classified` / `classification_result`, and the insertion time. -/
def rawRowOf (m : RawMsgData) (t : ℚ) : RawRow :=
  { message_id := m.message_id, channel_id := m.channel_id,
    channel_name := m.channel_name, message_text := m.message_text,
    message_date := m.message_date, reply_to_message_id := m.reply_to_message_id,
    is_classified := false, classification_result := none, created_at := t }

/-- `SQLiteStorage.store_raw_message` (lines 239-275): `INSERT OR REPLACE`
keyed on `(message_id, channel_id)`, inserting at time `t` — any row with the
same identity is deleted and the new row appended. -/
def storeRawMessage (s : List RawRow) (m : RawMsgData) (t : ℚ) : List RawRow :=
  (s.filter (fun r => decide (rawKey r ≠ msgKey m))) ++ [rawRowOf m t]

/-- Number of `raw_messages` rows carrying a given identity. -/
def rawKeyCount (s : List RawRow) (k : Int × Int) : Nat :=
  (s.filter (fun r => decide (rawKey r = k))).length

/-! ## The multi-sink coordinator (`src/storage/multi.py`) -/

/-- The argument of `MultiStorage.append_row`: `None`, a non-dictionary
value, or a dictionary (a possibly empty key-value list). -/
inductive PyData where
  | pynone
  | nonDict
  | dict (entries : List (String × String))
deriving DecidableEq

/-- The rows held by each sink; `none` marks a secondary that was not
configured (its attribute is `None`, so `append_row` skips it). -/
structure MultiState where
  sqliteRows : List PyData
  excelRows : Option (List PyData)
  sheetsRows : Option (List PyData)
deriving DecidableEq

/-- Whether each sink's write raises on this call. -/
structure SinkHealth where
  sqliteOk : Bool
  excelOk : Bool
  sheetsOk : Bool
deriving DecidableEq

/-- `MultiStorage.append_row` (lines 98-160): validate the argument, then try
SQLite, then the configured secondaries, counting successes and swallowing
individual failures; raise a single aggregate `Exception` iff no sink
accepted the write.  Returns the resulting sink states together with the
call's outcome. -/
def appendRow (h : SinkHealth) (st : MultiState) (d : PyData) :
    MultiState × Except PyErr Unit :=
  match d with
  | .pynone => (st, .error (.valueError ("Data cannot be None")))
  | .nonDict => (st, .error (.typeError ("Data must be a dictionary")))
  | .dict entries =>
      if entries.isEmpty then (st, .error (.valueError ("Data dictionary cannot be empty")))
      else
        let s1 : MultiState × Nat :=
          if h.sqliteOk then ({ st with sqliteRows := st.sqliteRows ++ [d] }, 1)
          else (st, 0)
        let s2 : MultiState × Nat :=
          match s1.1.excelRows with
          | none => (s1.1, s1.2)
          | some rows =>
              if h.excelOk then ({ s1.1 with excelRows := some (rows ++ [d]) }, s1.2 + 1)
              else (s1.1, s1.2)
        let s3 : MultiState × Nat :=
          match s2.1.sheetsRows with
          | none => (s2.1, s2.2)
          | some rows =>
              if h.sheetsOk then ({ s2.1 with sheetsRows := some (rows ++ [d]) }, s2.2 + 1)
              else (s2.1, s2.2)
        if s3.2 = 0 then (s3.1, .error (.exception ("All storage operations failed")))
        else (s3.1, .ok ())

/-! ## Per-message retry (`MessageHandler.handle_message_with_retry`,
src/listener.py lines 315-349) -/

/-- The loop body of `handle_message_with_retry` from attempt `a` with `n`
loop iterations left: `outcome a` is what `handle_message` does on attempt
`a` (returns a Bool or raises), `jitter a` the `random.uniform(0.9, 1.1)`
draw after attempt `a`.  Returns (result, number of attempts executed, the
backoff sleeps in order). -/
def retryFrom (outcome : Nat → Except String Bool) (jitter : Nat → ℚ)
    (maxRetries : Nat) : Nat → Nat → Bool × Nat × List ℚ
  | _, 0 => (false, 0, [])
  | a, n + 1 =>
      match outcome a with
      | .ok b => (b, 1, [])
      | .error _ =>
          if a = maxRetries then (false, 1, [])
          else
            let d := (min ((2 : ℚ) ^ a) 30) * jitter a
            let rest := retryFrom outcome jitter maxRetries (a + 1) n
            (rest.1, rest.2.1 + 1, d :: rest.2.2)

/-- `handle_message_with_retry(message, max_retries)`: the
`for attempt in range(max_retries + 1)` loop. -/
def handleMessageWithRetry (outcome : Nat → Except String Bool) (jitter : Nat → ℚ)
    (maxRetries : Nat) : Bool × Nat × List ℚ :=
  retryFrom outcome jitter maxRetries 0 (maxRetries + 1)

/-! ## Reconnect backoff (`TelegramListener.auto_reconnect`,
src/listener.py lines 627-650) -/

/-- `if await self.connect():` — a connect call that raises, or returns
`False`, lets the loop continue. -/
def connOk : Except String Bool → Bool
  | .ok true => true
  | _ => false

/-- The loop body of `auto_reconnect` from attempt index `i` with `n`
iterations left: sleep `2^i + jitter i` (`jitter i` models
`random.uniform(0, 1)`), then try to connect.  Returns (success, sleeps in
order). -/
def reconnectFrom (connectResult : Nat → Except String Bool) (jitter : Nat → ℚ) :
    Nat → Nat → Bool × List ℚ
  | _, 0 => (false, [])
  | i, n + 1 =>
      let d := (2 : ℚ) ^ i + jitter i
      if connOk (connectResult i) then (true, [d])
      else
        let rest := reconnectFrom connectResult jitter (i + 1) n
        (rest.1, d :: rest.2)

/-- `auto_reconnect(max_retries)`: the `for i in range(max_retries)` loop. -/
def autoReconnect (connectResult : Nat → Except String Bool) (jitter : Nat → ℚ)
    (maxRetries : Nat) : Bool × List ℚ :=
  reconnectFrom connectResult jitter 0 maxRetries

/-! ## Concrete fixtures used by the claim theorems -/

/-- The no-VIP update message of the specification's scenario 1 (and of the
source's own docstring examples at src/parser.py lines 101 and 134). -/
def noVipUpdateMsg : String := "🎉 2.6x | 💹From 45.9K ↗️ 115.0K within 8m"

/-- A well-formed discovery message (scenario 1's discovery, with a full-length
contract address). -/
def beanDiscoveryMsg : String :=
  "[Bean Cabal (CABAL)](http://x) `AAAAAAAAAAAAAAAAAAAAAAAAAAAAAAAAAAAAAAAA` `Cap:` **45.9K**"

/-- A message matched by the discovery pattern that is also matched by the
(earlier-tried) update pattern. -/
def hybridMsg : String :=
  "🎉 2.0x(3.0x from VIP) | 💹From 1K ↗️ 2K within 8m [T](http://a) `AAAAAAAAAAAAAAAAAAAAAAAAAAAAAA` Cap:` **3K**"

/-- A stored normalized row of type `update` (message 1002 of a channel). -/
def updateRow1002 : CallRow :=
  { id := 1, token_name := none, entry_cap := some 45900, peak_cap := some 115000,
    x_gain := some (26 / 10), vip_x := none, message_type := some ("update"),
    contract_address := none, time_to_peak := some ("8m"), timestamp := 0,
    message_id := 1002, channel_name := ("pfultimate"), linked_crypto_call_id := none }

/-- A stored discovery row (message 1001) carrying a token name and a
contract address. -/
def discoveryRow1001 : CallRow :=
  { id := 1, token_name := some ("Bean Cabal (CABAL)"), entry_cap := some 45900,
    peak_cap := some 45900, x_gain := some 1, vip_x := none,
    message_type := some ("discovery"),
    contract_address := some ("AAAAAAAAAAAAAAAAAAAAAAAAAAAAAAAAAAAAAAAA"),
    time_to_peak := none, timestamp := 0, message_id := 1001,
    channel_name := ("pfultimate"), linked_crypto_call_id := none }

/-- A parsed update record, as produced by the update parser (no token name,
no contract address). -/
def parsedUpd : ParsedCall :=
  { token_name := none, entry_cap := some 115000, peak_cap := some 287500,
    x_gain := some (25 / 10), vip_x := none, message_type := ("update"),
    contract_address := none, time_to_peak := some ("12m") }

/-- The raw message of an update that replies to message 1002. -/
def rawReply1002 : RawMsgData :=
  { message_id := 1003, channel_id := -1000123, channel_name := ("pfultimate"),
    message_text := ("🎉 2.5x …"), message_date := 0,
    reply_to_message_id := some 1002 }

/-- A raw message (identity `(77, -5)`). -/
def rawMsgA : RawMsgData :=
  { message_id := 77, channel_id := -5, channel_name := ("chan"),
    message_text := ("first text"), message_date := 1,
    reply_to_message_id := none }

/-- A different raw message carrying the same `(message_id, channel_id)`
identity as `rawMsgA`. -/
def rawMsgB : RawMsgData :=
  { message_id := 77, channel_id := -5, channel_name := ("chan"),
    message_text := ("second text"), message_date := 2,
    reply_to_message_id := some 4 }

/-! ## Regex-interpreter lemmas

Shared infrastructure: a successful match only ever prepends to the capture
list, and every group on the mandatory spine of the pattern is present in the
captures of any successful match.  These facts let the parser's extraction
code be shown to raise at most catchable exception classes. -/

theorem mem_catMapM {f : α → List β} {l : List α} {b : β} :
    b ∈ catMapM f l ↔ ∃ a, a ∈ l ∧ b ∈ f a := by
  induction l with
  | nil => simp [catMapM]
  | cons x xs ih =>
      simp only [catMapM, List.mem_append, ih, List.mem_cons]
      constructor
      · rintro (hb | ⟨a, ha, hb⟩)
        · exact ⟨x, Or.inl rfl, hb⟩
        · exact ⟨a, Or.inr ha, hb⟩
      · rintro ⟨a, (rfl | ha), hb⟩
        · exact Or.inl hb
        · exact Or.inr ⟨a, ha, hb⟩

theorem lookupGrp_isSome_of_suffix {l l' : Caps} {i : Nat} (hs : l <:+ l')
    (h : (lookupGrp l i).isSome) : (lookupGrp l' i).isSome := by
  obtain ⟨pre, rfl⟩ := hs
  induction pre with
  | nil => simpa using h
  | cons x xs ih =>
      by_cases hx : x.1 = i
      · simp [lookupGrp, List.find?_cons, hx]
      · simpa [lookupGrp, List.find?_cons, hx] using ih

theorem reMatch_caps_suffix :
    ∀ (f : Nat) (r : RE) (s : List Char) (caps : Caps) (p : List Char × Caps),
      p ∈ reMatch f r s caps → caps <:+ p.2 := by
  intro f
  induction f with
  | zero => intro r s caps p hp; simp [reMatch] at hp
  | succ f ih =>
      intro r s caps p hp
      cases r with
      | ch c =>
          cases s with
          | nil => simp [reMatch] at hp
          | cons d rest =>
              simp only [reMatch] at hp
              split at hp
              · simp only [List.mem_singleton] at hp
                subst hp; exact List.suffix_refl _
              · simp at hp
      | cls cs neg =>
          cases s with
          | nil => simp [reMatch] at hp
          | cons d rest =>
              simp only [reMatch] at hp
              split at hp
              · simp only [List.mem_singleton] at hp
                subst hp; exact List.suffix_refl _
              · simp at hp
      | dot =>
          cases s with
          | nil => simp [reMatch] at hp
          | cons d rest =>
              simp only [reMatch, List.mem_singleton] at hp
              subst hp; exact List.suffix_refl _
      | eps =>
          simp only [reMatch, List.mem_singleton] at hp
          subst hp; exact List.suffix_refl _
      | eos =>
          simp only [reMatch] at hp
          split at hp
          · simp only [List.mem_singleton] at hp
            subst hp; exact List.suffix_refl _
          · simp at hp
      | seq a b =>
          simp only [reMatch, mem_catMapM] at hp
          obtain ⟨q, hq, hp2⟩ := hp
          exact (ih a s caps q hq).trans (ih b q.1 q.2 p hp2)
      | alt a b =>
          simp only [reMatch, List.mem_append] at hp
          rcases hp with hp | hp
          · exact ih a s caps p hp
          · exact ih b s caps p hp
      | star a lz =>
          simp only [reMatch] at hp
          cases lz with
          | true =>
              rw [if_pos rfl] at hp
              rw [List.mem_cons, mem_catMapM] at hp
              rcases hp with rfl | ⟨q, hq, hp2⟩
              · exact List.suffix_refl _
              · split at hp2
                · exact (ih a s caps q hq).trans (ih (.star a true) q.1 q.2 p hp2)
                · simp at hp2
          | false =>
              rw [if_neg (by simp)] at hp
              rw [List.mem_append, mem_catMapM, List.mem_singleton] at hp
              rcases hp with ⟨q, hq, hp2⟩ | rfl
              · split at hp2
                · exact (ih a s caps q hq).trans (ih (.star a false) q.1 q.2 p hp2)
                · simp at hp2
              · exact List.suffix_refl _
      | grp j a =>
          simp only [reMatch, List.mem_map] at hp
          obtain ⟨q, hq, rfl⟩ := hp
          exact (ih a s caps q hq).trans (List.suffix_cons _ _)

theorem reMatch_mnd :
    ∀ (f : Nat) (r : RE) (s : List Char) (caps : Caps) (p : List Char × Caps),
      p ∈ reMatch f r s caps → ∀ i, i ∈ mndG r → (lookupGrp p.2 i).isSome := by
  intro f
  induction f with
  | zero => intro r s caps p hp; simp [reMatch] at hp
  | succ f ih =>
      intro r s caps p hp i hi
      cases r with
      | ch c => simp [mndG] at hi
      | cls cs neg => simp [mndG] at hi
      | dot => simp [mndG] at hi
      | eps => simp [mndG] at hi
      | eos => simp [mndG] at hi
      | alt a b => simp [mndG] at hi
      | star a lz => simp [mndG] at hi
      | seq a b =>
          simp only [reMatch, mem_catMapM] at hp
          obtain ⟨q, hq, hp2⟩ := hp
          simp only [mndG, List.mem_append] at hi
          rcases hi with hi | hi
          · exact lookupGrp_isSome_of_suffix (reMatch_caps_suffix f b q.1 q.2 p hp2)
              (ih a s caps q hq i hi)
          · exact ih b q.1 q.2 p hp2 i hi
      | grp j a =>
          simp only [reMatch, List.mem_map] at hp
          obtain ⟨q, hq, rfl⟩ := hp
          simp only [mndG, List.mem_cons] at hi
          rcases hi with rfl | hi
          · simp [lookupGrp, List.find?_cons]
          · exact lookupGrp_isSome_of_suffix (List.suffix_cons _ _) (ih a s caps q hq i hi)

theorem reSearchL_mnd (r : RE) (fuel : Nat) :
    ∀ (s : List Char) (caps : Caps), reSearchL r fuel s = some caps →
      ∀ i, i ∈ mndG r → (lookupGrp caps i).isSome := by
  intro s
  induction s with
  | nil =>
      intro caps h i hi
      rw [reSearchL] at h
      rcases hm : reMatch fuel r [] [] with _ | ⟨p, rest⟩
      · rw [hm] at h; simp at h
      · rw [hm] at h
        simp only [Option.some.injEq] at h
        subst h
        exact reMatch_mnd fuel r [] [] p (hm ▸ List.mem_cons_self p rest) i hi
  | cons c t iht =>
      intro caps h i hi
      rw [reSearchL] at h
      rcases hm : reMatch fuel r (c :: t) [] with _ | ⟨p, rest⟩
      · rw [hm] at h
        exact iht caps h i hi
      · rw [hm] at h
        simp only [Option.some.injEq] at h
        subst h
        exact reMatch_mnd fuel r (c :: t) [] p (hm ▸ List.mem_cons_self p rest) i hi

theorem reSearch_mnd {r : RE} {s : String} {caps : Caps}
    (h : reSearch r s = some caps) :
    ∀ i, i ∈ mndG r → (lookupGrp caps i).isSome := by
  unfold reSearch at h
  exact reSearchL_mnd r _ s.data caps h

/-! ## Exception analysis of the parser

`pyFloat` on a string only ever raises `ValueError`; a missing mandatory
group would be the only source of an uncatchable `TypeError`, and the
mandatory-group lemma rules that out.  Hence every exception the `try` body
of `parse_crypto_call` can raise is one of the two classes its `except`
clause catches. -/

theorem pyFloat_cases (s : String) :
    (∃ q, pyFloat s = .ok q) ∨
      pyFloat s = .error (.valueError ("could not convert string to float")) := by
  unfold pyFloat
  cases decFloat? s <;> simp

theorem extractVip_err {caps : Caps} {e : PyErr}
    (h1 : (lookupGrp caps 1).isSome) (h2 : (lookupGrp caps 2).isSome)
    (h3 : (lookupGrp caps 3).isSome) (h5 : (lookupGrp caps 5).isSome)
    (he : extractVip caps = .error e) : e.catchable = true := by
  obtain ⟨g1, hg1⟩ := Option.isSome_iff_exists.mp h1
  obtain ⟨g2, hg2⟩ := Option.isSome_iff_exists.mp h2
  obtain ⟨g3, hg3⟩ := Option.isSome_iff_exists.mp h3
  obtain ⟨g5, hg5⟩ := Option.isSome_iff_exists.mp h5
  unfold extractVip at he
  rw [hg1, hg2, hg3, hg5] at he
  simp only [pyFloatOpt] at he
  rcases pyFloat_cases g1 with ⟨q1, hf1⟩ | hf1 <;> rw [hf1] at he
  case inr => simp only [] at he; cases he; rfl
  rcases pyFloat_cases g2 with ⟨q2, hf2⟩ | hf2 <;> rw [hf2] at he
  case inr => simp only [] at he; cases he; rfl
  rcases pyFloat_cases g3 with ⟨q3, hf3⟩ | hf3 <;> rw [hf3] at he
  case inr => simp only [] at he; cases he; rfl
  rcases pyFloat_cases g5 with ⟨q5, hf5⟩ | hf5 <;> rw [hf5] at he
  case inr => simp only [] at he; cases he; rfl
  cases h7 : lookupGrp caps 7 <;> rw [h7] at he
  · cases he; rfl
  · cases he

theorem extractRegular_err {caps : Caps} {e : PyErr}
    (h1 : (lookupGrp caps 1).isSome) (h2 : (lookupGrp caps 2).isSome)
    (h4 : (lookupGrp caps 4).isSome)
    (he : extractRegular caps = .error e) : e.catchable = true := by
  obtain ⟨g1, hg1⟩ := Option.isSome_iff_exists.mp h1
  obtain ⟨g2, hg2⟩ := Option.isSome_iff_exists.mp h2
  obtain ⟨g4, hg4⟩ := Option.isSome_iff_exists.mp h4
  unfold extractRegular at he
  rw [hg1, hg2, hg4] at he
  simp only [pyFloatOpt] at he
  rcases pyFloat_cases g1 with ⟨q1, hf1⟩ | hf1 <;> rw [hf1] at he
  case inr => cases he; rfl
  rcases pyFloat_cases g2 with ⟨q2, hf2⟩ | hf2 <;> rw [hf2] at he
  case inr => cases he; rfl
  rcases pyFloat_cases g4 with ⟨q4, hf4⟩ | hf4 <;> rw [hf4] at he
  case inr => cases he; rfl
  cases h6 : lookupGrp caps 6 <;> rw [h6] at he
  · cases he; rfl
  · cases he

theorem extractDiscovery_err {caps : Caps} {e : PyErr}
    (h3 : (lookupGrp caps 3).isSome)
    (he : extractDiscovery caps = .error e) : e.catchable = true := by
  obtain ⟨g3, hg3⟩ := Option.isSome_iff_exists.mp h3
  unfold extractDiscovery at he
  rw [hg3] at he
  simp only [pyFloatOpt] at he
  rcases pyFloat_cases g3 with ⟨q3, hf3⟩ | hf3 <;> rw [hf3] at he
  case inr => cases he; rfl
  cases hg1 : lookupGrp caps 1 <;> rw [hg1] at he
  · cases he; rfl
  · cases hg2 : lookupGrp caps 2 <;> rw [hg2] at he
    · cases he; rfl
    · cases he

theorem fallbackTokenName_err {s : String} {e : PyErr}
    (he : fallbackTokenName s = .error e) : e.catchable = true := by
  unfold fallbackTokenName at he
  cases hs : reSearch tokenRegex s with
  | none => simp only [hs] at he; cases he
  | some caps =>
      simp only [hs] at he
      cases hg : lookupGrp caps 1 with
      | none => simp only [hg] at he; cases he; rfl
      | some t => simp only [hg] at he; cases he

theorem parseFallbackFormat_err {s : String} {e : PyErr}
    (he : parseFallbackFormat s = .error e) : e.catchable = true := by
  unfold parseFallbackFormat at he
  cases htok : fallbackTokenName s with
  | error e1 => simp only [htok] at he; cases he; exact fallbackTokenName_err htok
  | ok tokenName =>
  simp only [htok] at he
  cases hse : reSearch entryRegex s with
  | none => simp only [hse] at he; cases he
  | some ecaps =>
  simp only [hse] at he
  obtain ⟨ge, hge⟩ := Option.isSome_iff_exists.mp (reSearch_mnd hse 1 (by decide))
  rw [hge] at he
  simp only [pyFloatOpt] at he
  rcases pyFloat_cases ge with ⟨qe, hfe⟩ | hfe
  case inr => rw [hfe] at he; cases he; rfl
  rw [hfe] at he
  cases hsp : reSearch peakRegex s with
  | none => simp only [hsp] at he; cases he
  | some pcaps =>
  simp only [hsp] at he
  obtain ⟨gp, hgp⟩ := Option.isSome_iff_exists.mp (reSearch_mnd hsp 1 (by decide))
  rw [hgp] at he
  simp only [pyFloatOpt] at he
  rcases pyFloat_cases gp with ⟨qp, hfp⟩ | hfp
  case inr => rw [hfp] at he; cases he; rfl
  rw [hfp] at he
  cases hsg : reSearch gainRegex s with
  | none => simp only [hsg] at he; cases he
  | some gcaps =>
  simp only [hsg] at he
  obtain ⟨gg, hgg⟩ := Option.isSome_iff_exists.mp (reSearch_mnd hsg 1 (by decide))
  rw [hgg] at he
  simp only [pyFloatOpt] at he
  rcases pyFloat_cases gg with ⟨qg, hfg⟩ | hfg
  case inr => rw [hfg] at he; cases he; rfl
  rw [hfg] at he
  cases he

theorem parseUpdateMessage_err {s : String} {e : PyErr}
    (he : parseUpdateMessage s = .error e) : e.catchable = true := by
  unfold parseUpdateMessage at he
  cases hv : reSearch vipRegex s with
  | some caps =>
      simp only [hv] at he
      cases hx : extractVip caps with
      | error e1 =>
          simp only [hx, Except.map] at he
          cases he
          exact extractVip_err
            (reSearch_mnd hv 1 (by decide)) (reSearch_mnd hv 2 (by decide))
            (reSearch_mnd hv 3 (by decide)) (reSearch_mnd hv 5 (by decide)) hx
      | ok r => simp only [hx, Except.map] at he; cases he
  | none =>
      simp only [hv] at he
      cases hr : reSearch regularRegex s with
      | none => simp only [hr] at he; cases he
      | some caps =>
          simp only [hr] at he
          cases hx : extractRegular caps with
          | error e1 =>
              simp only [hx, Except.map] at he
              cases he
              exact extractRegular_err
                (reSearch_mnd hr 1 (by decide)) (reSearch_mnd hr 2 (by decide))
                (reSearch_mnd hr 4 (by decide)) hx
          | ok r => simp only [hx, Except.map] at he; cases he

theorem parseDiscoveryMessage_err {s : String} {e : PyErr}
    (he : parseDiscoveryMessage s = .error e) : e.catchable = true := by
  unfold parseDiscoveryMessage at he
  cases hd : reSearch discoveryRegex s with
  | none => simp only [hd] at he; cases he
  | some caps =>
      simp only [hd] at he
      cases hx : extractDiscovery caps with
      | error e1 =>
          simp only [hx, Except.map] at he
          cases he
          exact extractDiscovery_err (reSearch_mnd hd 3 (by decide)) hx
      | ok r => simp only [hx, Except.map] at he; cases he

theorem parseBody_err {s : String} {e : PyErr}
    (he : parseBody s = .error e) : e.catchable = true := by
  unfold parseBody at he
  cases hu : parseUpdateMessage s with
  | error e1 => simp only [hu] at he; cases he; exact parseUpdateMessage_err hu
  | ok u =>
  cases u with
  | some r => simp only [hu] at he; cases he
  | none =>
  simp only [hu] at he
  cases hd : parseDiscoveryMessage s with
  | error e1 => simp only [hd] at he; cases he; exact parseDiscoveryMessage_err hd
  | ok d =>
  cases d with
  | some r => simp only [hd] at he; cases he
  | none =>
  simp only [hd] at he
  split at he
  · cases he
  · exact parseFallbackFormat_err he

/-- C5: for every input to `parse_crypto_call` — `None`, a non-string value,
the empty string, or any string, including partial matches of each format
family — the function returns a parsed record or no-match, and no exception
propagates out of the call: every exception its extraction code can raise is
a `ValueError` (from `float()` on a capture) or an `AttributeError`, both of
which the `except (ValueError, AttributeError)` clause collapses to no-match. -/
theorem parseCryptoCall_total (input : PyInput) :
    ∃ r, parseCryptoCall input = .ok r := by
  cases input with
  | pyNone => exact ⟨none, rfl⟩
  | pyNonString => exact ⟨none, rfl⟩
  | pyStr s =>
      simp only [parseCryptoCall]
      by_cases hs : s = ""
      · rw [if_pos hs]; exact ⟨none, rfl⟩
      rw [if_neg hs]
      by_cases ht : pyStrip s = ""
      · rw [if_pos ht]; exact ⟨none, rfl⟩
      rw [if_neg ht]
      cases hb : parseBody (pyStrip s) with
      | ok r => exact ⟨r, rfl⟩
      | error e =>
          refine ⟨none, ?_⟩
          show (if e.catchable = true then Except.ok none else Except.error e) = Except.ok none
          rw [if_pos (parseBody_err hb)]

/-! ## The claims -/

/-- C1: the claim says a non-null `linked_crypto_call_id` always references a
stored call with `message_type = 'discovery'`.  The code violates this: both
the live reply-linker (`get_crypto_call_by_message_id`, used at
src/listener.py lines 417-426) and the backfill reply branch
(`link_to_discovery_call`, backfill_unparsed_messages.py lines 166-178) look
up `SELECT id FROM crypto_calls WHERE message_id = ? LIMIT 1` with no
`message_type` filter, so an update replying to a stored update is linked to
that update.  This theorem evaluates both paths at such an input: the store
holds a single `update` row with `message_id` 1002, and an update replying
to 1002 gets linked to it. -/
theorem c1_reply_link_ignores_message_type :
    (liveStorageData [updateRow1002] (some 1002) parsedUpd 1003 ("pfultimate") 0).linked_crypto_call_id
        = some 1 ∧
    linkToDiscoveryCall [updateRow1002] 0 rawReply1002 parsedUpd = some 1 ∧
    getCryptoCallById [updateRow1002] 1 = some updateRow1002 ∧
    updateRow1002.message_type = some ("update") ∧
    updateRow1002.message_type ≠ some ("discovery") := by
  refine ⟨by decide!, by decide!, by decide!, by decide!, by decide!⟩

/-- C2: the claim (and the source's own docstring examples at src/parser.py
lines 101 and 134, and the specification's scenario 1) say a no-VIP update
such as `🎉 2.6x | 💹From 45.9K ↗️ 115.0K within 8m` parses as an update with
`x_gain = 2.6` and `vip_x = null`.  The code disagrees: the `regular_pattern`
of `_parse_update_message` (lines 135-141) concatenates to exactly the same
pattern string as `vip_pattern` — the `(<Y>x from VIP)` parenthetical
included — so a message without the parenthetical matches neither update
pattern, falls through discovery/bonding/fallback, and `parse_crypto_call`
returns no-match. -/
theorem c2_no_vip_update_returns_no_match :
    regularRegex = vipRegex ∧
    parseUpdateMessage noVipUpdateMsg = .ok none ∧
    parseCryptoCall (.pyStr noVipUpdateMsg) = .ok none := by
  refine ⟨rfl, by decide!, by decide!⟩

theorem appendRow_outcome (h : SinkHealth) (st : MultiState)
    (entries : List (String × String)) (hne : entries ≠ []) :
    (appendRow h st (.dict entries)).2 =
      (if (h.sqliteOk || (st.excelRows.isSome && h.excelOk) ||
            (st.sheetsRows.isSome && h.sheetsOk)) = true
       then .ok ()
       else .error (.exception ("All storage operations failed"))) := by
  unfold appendRow
  cases hq : h.sqliteOk <;> rcases hex : st.excelRows with _ | re <;>
    cases he2 : h.excelOk <;> rcases hsh : st.sheetsRows with _ | rs <;>
    cases hs2 : h.sheetsOk <;>
    simp [hq, hex, he2, hsh, hs2, hne]

/-- C3: `MultiStorage.append_row` on a well-formed (non-empty dictionary)
record returns normally iff at least one configured sink accepted the write —
a failure of the primary alone, or of any individual secondary, does not
propagate — and raises a single aggregate `Exception` when every configured
sink raised.  SQLite is always configured; Excel / Google Sheets only when
their attribute is set. -/
theorem c3_append_at_least_one_sink (h : SinkHealth) (st : MultiState)
    (entries : List (String × String)) (hne : entries ≠ []) :
    ((h.sqliteOk = true ∨ (st.excelRows.isSome = true ∧ h.excelOk = true) ∨
        (st.sheetsRows.isSome = true ∧ h.sheetsOk = true)) →
      (appendRow h st (.dict entries)).2 = .ok ()) ∧
    ((h.sqliteOk = false ∧ (st.excelRows.isSome = true → h.excelOk = false) ∧
        (st.sheetsRows.isSome = true → h.sheetsOk = false)) →
      (appendRow h st (.dict entries)).2 =
        .error (.exception ("All storage operations failed"))) := by
  rw [appendRow_outcome h st entries hne]
  constructor
  · intro hone
    rw [if_pos]
    rcases hone with h1 | ⟨h2a, h2b⟩ | ⟨h3a, h3b⟩
    · simp [h1]
    · simp [h2a, h2b]
    · simp [h3a, h3b]
  · rintro ⟨h1, h2, h3⟩
    rw [if_neg]
    simp only [h1, Bool.false_or, Bool.or_eq_true, Bool.and_eq_true, not_or]
    constructor
    · rintro ⟨hex, hok⟩
      rw [h2 hex] at hok
      simp at hok
    · rintro ⟨hsh, hok⟩
      rw [h3 hsh] at hok
      simp at hok

/-- C3 witness: with a failing primary and a healthy configured Excel sink,
`append_row` on a one-field record returns normally; with every sink failing
it raises the aggregate error. -/
theorem c3_append_witness :
    (appendRow ⟨false, true, false⟩ ⟨[], some [], none⟩
        (.dict [(("token_name"), ("X"))])).2 = .ok () ∧
    (appendRow ⟨false, false, false⟩ ⟨[], some [], none⟩
        (.dict [(("token_name"), ("X"))])).2 =
      .error (.exception ("All storage operations failed")) :=
  ⟨(c3_append_at_least_one_sink ⟨false, true, false⟩ ⟨[], some [], none⟩
      [(("token_name"), ("X"))] (by decide)).1 (Or.inr (Or.inl (by decide))),
   (c3_append_at_least_one_sink ⟨false, false, false⟩ ⟨[], some [], none⟩
      [(("token_name"), ("X"))] (by decide)).2 (by decide)⟩

/-- C10: `MultiStorage.append_row` validates its argument before touching any
sink: `None` raises `ValueError`, a non-dictionary raises `TypeError`, an
empty dictionary raises `ValueError`, and in each case every sink's state —
primary and secondaries — is unchanged. -/
theorem c10_append_validation_preserves_state (h : SinkHealth) (st : MultiState) :
    appendRow h st .pynone = (st, .error (.valueError ("Data cannot be None"))) ∧
    appendRow h st .nonDict = (st, .error (.typeError ("Data must be a dictionary"))) ∧
    appendRow h st (.dict []) = (st, .error (.valueError ("Data dictionary cannot be empty"))) :=
  ⟨rfl, rfl, rfl⟩

/-- C4 counterexample: the claim says the inheritance rule applies to
`contract_address` on the live path as well.  It does not: the live path
(src/listener.py lines 428-434) inherits only `token_name`.  Here a parsed
update with null `token_name` and null `contract_address` replies to a stored
discovery that carries both; the live path links it and fills the token name,
but leaves `contract_address` null although the parent's is non-null. -/
theorem c4_counterexample :
    (liveStorageData [discoveryRow1001] (some 1001) parsedUpd 1002 ("pfultimate") 0).linked_crypto_call_id
        = some 1 ∧
    (liveStorageData [discoveryRow1001] (some 1001) parsedUpd 1002 ("pfultimate") 0).token_name
        = some ("Bean Cabal (CABAL)") ∧
    parsedUpd.contract_address = none ∧
    discoveryRow1001.contract_address = some ("AAAAAAAAAAAAAAAAAAAAAAAAAAAAAAAAAAAAAAAA") ∧
    (liveStorageData [discoveryRow1001] (some 1001) parsedUpd 1002 ("pfultimate") 0).contract_address
        = none := by
  refine ⟨by decide!, by decide!, by decide!, by decide!, by decide!⟩

/-- C4 (amended): inheritance fills only nulls and never overwrites — on the
backfill path for both `token_name` and `contract_address`; on the live path
for `token_name` only (whenever the reply reference resolves to a stored row
with a truthy `token_name` and the parsed one is null, the parent's name is
filled in), the live path passing `contract_address` through unchanged. -/
theorem c4_inheritance_fills_only_nulls (store : List CallRow) (replyTo : Option Int)
    (parsed : ParsedCall) (mid : Int) (ch : String) (ts : ℚ) (did : Nat) (row : CallRow)
    (hrow : store.find? (fun r => r.id == did) = some row) (hdid : did ≠ 0) :
    (liveStorageData store replyTo parsed mid ch ts).contract_address = parsed.contract_address ∧
    (∀ t, parsed.token_name = some t → t ≠ "" →
        (liveStorageData store replyTo parsed mid ch ts).token_name = some t) ∧
    (∀ rid oid orig, replyTo = some rid → rid ≠ 0 →
        getCryptoCallByMessageId store rid = some oid → oid ≠ 0 →
        parsed.token_name = none → getCryptoCallById store oid = some orig →
        ∀ u, orig.token_name = some u → u ≠ "" →
        (liveStorageData store replyTo parsed mid ch ts).token_name = some u ∧
        (liveStorageData store replyTo parsed mid ch ts).linked_crypto_call_id = some oid) ∧
    (parsed.token_name = none → ∀ u, row.token_name = some u → u ≠ "" →
        (inheritDiscoveryData store parsed (some did)).token_name = some u) ∧
    (∀ t, parsed.token_name = some t → t ≠ "" →
        (inheritDiscoveryData store parsed (some did)).token_name = some t) ∧
    (parsed.contract_address = none → ∀ u, row.contract_address = some u → u ≠ "" →
        (inheritDiscoveryData store parsed (some did)).contract_address = some u) ∧
    (∀ t, parsed.contract_address = some t → t ≠ "" →
        (inheritDiscoveryData store parsed (some did)).contract_address = some t) := by
  have hguard : pyTruthyOptNat (some did) = true := by
    simp [pyTruthyOptNat, hdid]
  refine ⟨rfl, ?_, ?_, ?_, ?_, ?_, ?_⟩
  · intro t ht htne
    have hft : pyFalsyOptStr (some t) = false := by simp [pyFalsyOptStr, htne]
    unfold liveStorageData
    cases hR : pyTruthyOptInt replyTo
    · simp [hR, ht]
    · cases replyTo with
      | none => simp [pyTruthyOptInt] at hR
      | some rid =>
          cases hq : getCryptoCallByMessageId store rid with
          | none => simp [hR, hq, ht]
          | some oid =>
              by_cases hz : oid ≠ 0
              · simp [hR, hq, hz, ht, hft]
              · simp [hR, hq, hz, ht]
  · intro rid oid orig hrT hrid hq hz hpt horig u hu hune
    subst hrT
    have hR : pyTruthyOptInt (some rid) = true := by simp [pyTruthyOptInt, hrid]
    have hfu : pyFalsyOptStr (some u) = false := by simp [pyFalsyOptStr, hune]
    unfold liveStorageData
    constructor
    · simp [hR, hq, hz, hpt, horig, hu, hfu,
        show pyFalsyOptStr (none : Option String) = true from rfl]
    · simp [hR, hq, hz]
  · intro hpt u hu hune
    have hfu : pyFalsyOptStr (some u) = false := by simp [pyFalsyOptStr, hune]
    unfold inheritDiscoveryData
    simp only [hguard, Bool.not_true, hrow]
    cases hca : pyFalsyOptStr parsed.contract_address <;>
      cases hrca : pyFalsyOptStr row.contract_address <;>
      simp [hpt, hu, hfu, hca, hrca, hune,
        show pyFalsyOptStr (none : Option String) = true from rfl]
  · intro t ht htne
    have hft : pyFalsyOptStr (some t) = false := by simp [pyFalsyOptStr, htne]
    unfold inheritDiscoveryData
    simp only [hguard, Bool.not_true, hrow]
    cases hca : pyFalsyOptStr parsed.contract_address <;>
      cases hrca : pyFalsyOptStr row.contract_address <;>
      simp [ht, hft, hca, hrca]
  · intro hpc u hu hune
    have hfu : pyFalsyOptStr (some u) = false := by simp [pyFalsyOptStr, hune]
    unfold inheritDiscoveryData
    simp only [hguard, Bool.not_true, hrow]
    cases hta : pyFalsyOptStr parsed.token_name <;>
      cases hrta : pyFalsyOptStr row.token_name <;>
      simp [hpc, hu, hfu, hta, hrta, hune,
        show pyFalsyOptStr (none : Option String) = true from rfl]
  · intro t ht htne
    have hft : pyFalsyOptStr (some t) = false := by simp [pyFalsyOptStr, htne]
    unfold inheritDiscoveryData
    simp only [hguard, Bool.not_true, hrow]
    cases hta : pyFalsyOptStr parsed.token_name <;>
      cases hrta : pyFalsyOptStr row.token_name <;>
      simp [ht, hft, hta, hrta]

/-- C4 witness: the amended theorem applied at a concrete store — the live
path passes `contract_address` through, and the backfill path fills a null
`token_name` from the linked discovery. -/
theorem c4_inheritance_witness :
    (liveStorageData [discoveryRow1001] (some 1001) parsedUpd 1002 ("pfultimate") 0).contract_address
        = parsedUpd.contract_address ∧
    (liveStorageData [discoveryRow1001] (some 1001) parsedUpd 1002 ("pfultimate") 0).token_name
        = some ("Bean Cabal (CABAL)") ∧
    (inheritDiscoveryData [discoveryRow1001] parsedUpd (some 1)).token_name
        = some ("Bean Cabal (CABAL)") ∧
    (inheritDiscoveryData [discoveryRow1001] parsedUpd (some 1)).contract_address
        = some ("AAAAAAAAAAAAAAAAAAAAAAAAAAAAAAAAAAAAAAAA") :=
  ⟨(c4_inheritance_fills_only_nulls [discoveryRow1001] (some 1001) parsedUpd 1002
      ("pfultimate") 0 1 discoveryRow1001 (by decide!) (by decide)).1,
   ((c4_inheritance_fills_only_nulls [discoveryRow1001] (some 1001) parsedUpd 1002
      ("pfultimate") 0 1 discoveryRow1001 (by decide!) (by decide)).2.2.1 1001 1
      discoveryRow1001 rfl (by decide) (by decide!) (by decide) rfl (by decide!)
      ("Bean Cabal (CABAL)") (by decide!) (by decide)).1,
   (c4_inheritance_fills_only_nulls [discoveryRow1001] (some 1001) parsedUpd 1002
      ("pfultimate") 0 1 discoveryRow1001 (by decide!) (by decide)).2.2.2.1 rfl
      ("Bean Cabal (CABAL)") (by decide!) (by decide),
   (c4_inheritance_fills_only_nulls [discoveryRow1001] (some 1001) parsedUpd 1002
      ("pfultimate") 0 1 discoveryRow1001 (by decide!) (by decide)).2.2.2.2.2.1 rfl
      ("AAAAAAAAAAAAAAAAAAAAAAAAAAAAAAAAAAAAAAAA") (by decide!) (by decide)⟩

theorem extractDiscovery_ok {caps : Caps} {r : ParsedCall}
    (hx : extractDiscovery caps = .ok r) :
    ∃ capStr v tn ca,
      lookupGrp caps 3 = some capStr ∧ pyFloat capStr = .ok v ∧
      lookupGrp caps 1 = some tn ∧ lookupGrp caps 2 = some ca ∧
      r = { token_name := some (pyStrip tn),
            entry_cap := some (convertToNumber v (lookupGrp caps 4)),
            peak_cap := some (convertToNumber v (lookupGrp caps 4)),
            x_gain := some 1, vip_x := none, message_type := ("discovery"),
            contract_address := some (pyStrip ca), time_to_peak := none } := by
  unfold extractDiscovery at hx
  cases hg3 : lookupGrp caps 3 with
  | none => simp only [hg3, pyFloatOpt] at hx; cases hx
  | some g3 =>
  simp only [hg3, pyFloatOpt] at hx
  cases hf : pyFloat g3 with
  | error e => simp only [hf] at hx; cases hx
  | ok v =>
  simp only [hf] at hx
  cases hg1 : lookupGrp caps 1 with
  | none => simp only [hg1] at hx; cases hx
  | some tn =>
  simp only [hg1] at hx
  cases hg2 : lookupGrp caps 2 with
  | none => simp only [hg2] at hx; cases hx
  | some ca =>
  simp only [hg2] at hx
  cases hx
  exact ⟨g3, v, tn, ca, rfl, hf, rfl, rfl, rfl⟩

/-- C6 (amended): for every message matched by the discovery pattern *and not
by the earlier-tried update patterns* (the source tries the update family
first, so a message matching both parses as an update), the parsed record has
`x_gain = 1.0`, `entry_cap = peak_cap` equal to the captured cap value times
the magnitude of its `K`/`M`/`B` suffix (missing suffix = 1), `token_name`
the bracketed display text (whitespace-trimmed), `contract_address` the
backticked address (trimmed), and `message_type = 'discovery'`. -/
theorem c6_discovery_parse (s : String) (r : ParsedCall)
    (hu : parseUpdateMessage (pyStrip s) = .ok none)
    (hd : parseDiscoveryMessage (pyStrip s) = .ok (some r)) :
    parseCryptoCall (.pyStr s) = .ok (some r) ∧
    r.x_gain = some 1 ∧ r.entry_cap = r.peak_cap ∧ r.message_type = ("discovery") ∧
    r.vip_x = none ∧
    ∃ caps capStr v tn ca,
      reSearch discoveryRegex (pyStrip s) = some caps ∧
      lookupGrp caps 3 = some capStr ∧ pyFloat capStr = .ok v ∧
      r.entry_cap = some (convertToNumber v (lookupGrp caps 4)) ∧
      lookupGrp caps 1 = some tn ∧ r.token_name = some (pyStrip tn) ∧
      lookupGrp caps 2 = some ca ∧ r.contract_address = some (pyStrip ca) := by
  have hne : pyStrip s ≠ "" := by
    intro h0
    rw [h0] at hd
    have : parseDiscoveryMessage ("") = .ok none := by decide
    rw [this] at hd
    simp at hd
  have hs0 : s ≠ "" := by
    intro h0
    apply hne
    rw [h0]
    decide
  have hparse : parseCryptoCall (.pyStr s) = .ok (some r) := by
    simp only [parseCryptoCall]
    rw [if_neg hs0, if_neg hne]
    unfold parseBody
    simp only [hu, hd]
  refine ⟨hparse, ?_⟩
  unfold parseDiscoveryMessage at hd
  cases hsearch : reSearch discoveryRegex (pyStrip s) with
  | none => simp only [hsearch] at hd; simp at hd
  | some caps =>
  simp only [hsearch] at hd
  cases hx : extractDiscovery caps with
  | error e => simp only [hx, Except.map] at hd; simp at hd
  | ok r0 =>
  simp only [hx, Except.map] at hd
  obtain rfl : r0 = r := by simpa using hd
  obtain ⟨capStr, v, tn, ca, h3, hf, h1, h2, hr⟩ := extractDiscovery_ok hx
  subst hr
  exact ⟨rfl, rfl, rfl, rfl, caps, capStr, v, tn, ca, rfl, h3, hf, rfl, h1, rfl, h2, rfl⟩

/-- C6 counterexample: a message matched by the discovery format that also
matches the update-with-VIP pattern (which the parser tries first) parses as
an update with `x_gain = 2.0 ≠ 1.0` — so, read over all messages matched by
the discovery format, the claim fails without the precedence qualifier. -/
theorem c6_counterexample :
    (reSearch discoveryRegex hybridMsg).isSome = true ∧
    parseCryptoCall (.pyStr hybridMsg) = .ok (some
      { token_name := none, entry_cap := some 1000, peak_cap := some 2000,
        x_gain := some 2, vip_x := some 3, message_type := ("update"),
        contract_address := none, time_to_peak := some ("8m") }) ∧
    ({ token_name := none, entry_cap := some 1000, peak_cap := some 2000,
       x_gain := some 2, vip_x := some 3, message_type := ("update"),
       contract_address := none, time_to_peak := some ("8m") } : ParsedCall).x_gain
      ≠ some 1 := by
  refine ⟨by decide!, by decide!, by decide!⟩

/-- C6 witness: the amended theorem applied to a concrete discovery message:
it parses with `x_gain = 1`, `entry_cap = peak_cap = 45.9 · 1000`. -/
theorem c6_discovery_witness :
    parseUpdateMessage (pyStrip beanDiscoveryMsg) = .ok none ∧
    parseDiscoveryMessage (pyStrip beanDiscoveryMsg) = .ok (some
      { token_name := some ("Bean Cabal (CABAL)"), entry_cap := some 45900,
        peak_cap := some 45900, x_gain := some 1, vip_x := none,
        message_type := ("discovery"),
        contract_address := some ("AAAAAAAAAAAAAAAAAAAAAAAAAAAAAAAAAAAAAAAA"),
        time_to_peak := none }) ∧
    parseCryptoCall (.pyStr beanDiscoveryMsg) = .ok (some
      { token_name := some ("Bean Cabal (CABAL)"), entry_cap := some 45900,
        peak_cap := some 45900, x_gain := some 1, vip_x := none,
        message_type := ("discovery"),
        contract_address := some ("AAAAAAAAAAAAAAAAAAAAAAAAAAAAAAAAAAAAAAAA"),
        time_to_peak := none }) :=
  have hu : parseUpdateMessage (pyStrip beanDiscoveryMsg) = .ok none := by decide!
  have hd : parseDiscoveryMessage (pyStrip beanDiscoveryMsg) = .ok (some
      { token_name := some ("Bean Cabal (CABAL)"), entry_cap := some 45900,
        peak_cap := some 45900, x_gain := some 1, vip_x := none,
        message_type := ("discovery"),
        contract_address := some ("AAAAAAAAAAAAAAAAAAAAAAAAAAAAAAAAAAAAAAAA"),
        time_to_peak := none }) := by decide!
  ⟨hu, hd, (c6_discovery_parse beanDiscoveryMsg _ hu hd).1⟩

/-- C7: the raw-layer upsert is idempotent on `(message_id, channel_id)`:
storing two raw messages with the same identity leaves the store exactly as
storing the second alone; after a store, exactly one row carries that
identity and it holds the most recently supplied field values (`rawRowOf`,
appended last), other identities are untouched, and at-most-one-row-per-pair
is preserved. -/
theorem c7_raw_upsert_idempotent (s : List RawRow) (m m' : RawMsgData) (t t' : ℚ)
    (hk : msgKey m = msgKey m') :
    storeRawMessage (storeRawMessage s m t) m' t' = storeRawMessage s m' t' ∧
    rawKeyCount (storeRawMessage s m t) (msgKey m) = 1 ∧
    (∀ k, k ≠ msgKey m → rawKeyCount (storeRawMessage s m t) k = rawKeyCount s k) ∧
    ((∀ k, rawKeyCount s k ≤ 1) → ∀ k, rawKeyCount (storeRawMessage s m t) k ≤ 1) := by
  have hcount1 : rawKeyCount (storeRawMessage s m t) (msgKey m) = 1 := by
    unfold rawKeyCount storeRawMessage
    rw [List.filter_append]
    have hinner :
        ((s.filter (fun r => decide (rawKey r ≠ msgKey m))).filter
          (fun r => decide (rawKey r = msgKey m))) = [] := by
      rw [List.filter_filter]
      have hfun : ∀ r ∈ s,
          (decide (rawKey r = msgKey m) && decide (rawKey r ≠ msgKey m)) = false := by
        intro r _
        by_cases h : rawKey r = msgKey m <;> simp [h]
      calc (s.filter fun r => decide (rawKey r = msgKey m) && decide (rawKey r ≠ msgKey m))
          = s.filter (fun _ => false) := List.filter_congr hfun
        _ = [] := List.filter_false s
    rw [hinner]
    simp [List.filter_cons, rawRowOf, rawKey, msgKey]
  have hcount2 : ∀ k, k ≠ msgKey m →
      rawKeyCount (storeRawMessage s m t) k = rawKeyCount s k := by
    intro k hkne
    unfold rawKeyCount storeRawMessage
    rw [List.filter_append, List.filter_filter]
    have hrow : (decide (rawKey (rawRowOf m t) = k)) = false := by
      simp [rawRowOf, rawKey, msgKey]
      intro hcon
      exact absurd (by simp [msgKey, ← hcon]) hkne.symm
    have hfun : ∀ r ∈ s,
        (decide (rawKey r = k) && decide (rawKey r ≠ msgKey m)) = decide (rawKey r = k) := by
      intro r _
      by_cases h : rawKey r = k
      · simp [h]
        exact hkne
      · simp [h]
    rw [List.filter_congr hfun]
    simp [List.filter_cons, hrow]
  refine ⟨?_, hcount1, hcount2, ?_⟩
  · simp only [storeRawMessage, hk, List.filter_append]
    have hrr : rawKey (rawRowOf m t) = msgKey m' := by
      rw [show rawKey (rawRowOf m t) = msgKey m from rfl, hk]
    have hrow : (decide (rawKey (rawRowOf m t) ≠ msgKey m')) = false := by
      simp [hrr]
    rw [List.filter_filter]
    have hfun : ∀ r ∈ s,
        (decide (rawKey r ≠ msgKey m') && decide (rawKey r ≠ msgKey m')) =
          decide (rawKey r ≠ msgKey m') := by
      intro r _
      simp
    rw [List.filter_congr hfun]
    simp [List.filter_cons, hrow, hrr]
  · intro hle k
    by_cases hk2 : k = msgKey m
    · subst hk2
      rw [hcount1]
    · rw [hcount2 k hk2]
      exact hle k

/-- C7 witness: two raw messages with identity `(77, -5)` stored into the
empty store — the state equals storing only the second, and the identity
carries exactly one row. -/
theorem c7_raw_upsert_witness :
    storeRawMessage (storeRawMessage [] rawMsgA 1) rawMsgB 2 = storeRawMessage [] rawMsgB 2 ∧
    rawKeyCount (storeRawMessage [] rawMsgA 1) (msgKey rawMsgA) = 1 :=
  ⟨(c7_raw_upsert_idempotent [] rawMsgA rawMsgB 1 2 (by decide!)).1,
   (c7_raw_upsert_idempotent [] rawMsgA rawMsgB 1 2 (by decide!)).2.1⟩

/-- C8 counterexample: the claim says the retry wrapper executes the
processing step at most 3 attempts in total.  With the default
`max_retries = 3`, the loop `for attempt in range(max_retries + 1)` executes
`handle_message` up to 4 times: on a step that fails three times and then
succeeds, 4 attempts run. -/
theorem c8_counterexample :
    (handleMessageWithRetry (fun a => if a < 3 then .error ("boom") else .ok true)
        (fun _ => 1) 3).2.1 = 4 ∧
    ¬((handleMessageWithRetry (fun a => if a < 3 then .error ("boom") else .ok true)
        (fun _ => 1) 3).2.1 ≤ 3) := by
  refine ⟨by decide!, by decide!⟩

/-- C8 (amended): with the default `max_retries = 3` the per-message retry
wrapper executes the processing step at most `max_retries + 1 = 4` attempts
in total (1 initial + up to 3 retries); at most 3 backoff sleeps occur, and
the sleep after failed attempt `a` (`a` = 0, 1, 2) is `min(2^a, 30)` seconds
multiplied by that attempt's `random.uniform(0.9, 1.1)` jitter draw. -/
theorem c8_retry_at_most_four_attempts (outcome : Nat → Except String Bool)
    (jitter : Nat → ℚ) :
    (handleMessageWithRetry outcome jitter 3).2.1 ≤ 4 ∧
    (handleMessageWithRetry outcome jitter 3).2.2.length ≤ 3 ∧
    (handleMessageWithRetry outcome jitter 3).2.2 =
      (List.range (handleMessageWithRetry outcome jitter 3).2.2.length).map
        (fun k => (min ((2 : ℚ) ^ k) 30) * jitter k) := by
  unfold handleMessageWithRetry
  cases h0 : outcome 0 <;> cases h1 : outcome 1 <;> cases h2 : outcome 2 <;>
    cases h3 : outcome 3 <;>
    simp [retryFrom, h0, h1, h2, h3, List.range_succ]

/-- C9 counterexample: the claim says the delay before reconnect attempt `k`
is `2^k` seconds times a uniform jitter factor, making the first two sleeps
approximately 2 s then 4 s.  The code sleeps `2^i + random.uniform(0, 1)`
for `i = 0, 1, ...`: with jitter draws of 0 the five sleeps are 1, 2, 4, 8,
16 s — the first sleep (1 s) is below 1.8 s, the least the claim's formula
allows for `2^1 · jitter` with jitter in [0.9, 1.1]. -/
theorem c9_counterexample :
    (autoReconnect (fun _ => .ok false) (fun _ => 0) 5).2 = [1, 2, 4, 8, 16] ∧
    (1 : ℚ) < 2 * (9 / 10) := by
  refine ⟨by decide!, by decide!⟩

/-- C9 (amended): `auto_reconnect` makes at most `max_retries` (default 5)
attempts, and the sleep before attempt `k` (1-indexed) is `2^(k-1)` seconds
plus that attempt's `random.uniform(0, 1)` draw — so with draws in [0, 1) the
first two sleeps lie in [1, 2) and [2, 3). -/
theorem c9_reconnect_backoff (connectResult : Nat → Except String Bool)
    (jitter : Nat → ℚ) :
    (autoReconnect connectResult jitter 5).2.length ≤ 5 ∧
    (autoReconnect connectResult jitter 5).2 =
      (List.range (autoReconnect connectResult jitter 5).2.length).map
        (fun k => (2 : ℚ) ^ k + jitter k) := by
  unfold autoReconnect
  cases h0 : connOk (connectResult 0) <;> cases h1 : connOk (connectResult 1) <;>
    cases h2 : connOk (connectResult 2) <;> cases h3 : connOk (connectResult 3) <;>
    cases h4 : connOk (connectResult 4) <;>
    simp [reconnectFrom, h0, h1, h2, h3, h4, List.range_succ]
